import Mathlib

/-!
Shallow embedding of the authentication core of `src/api/auth.rs` (top-blog).

Timestamps are modelled as `Int` (Unix seconds, as produced by
`Utc::now().timestamp()`).  The i16 permission bitmask is modelled as `Int`
with `Int.land` for the Rust `&` operator.  JWT tokens produced by the
`jsonwebtoken` crate are modelled abstractly by the inductive `Token`:
a signed token remembers the secret it was signed with and its payload, and
`Token.malformed` stands for any string that is not a well-formed signed
token (or a header value whose bytes do not form a valid string).  Decoding
with `Validation::default()` checks the signature and that the embedded
`exp` has not passed (`now ≤ exp`, zero leeway); decoding a payload of the
wrong shape (session claims vs action claims) fails, exactly as serde
deserialization of a mismatched claim shape fails in the Rust code.

Helper functions that live outside `src/` (`re_test_email`, `re_test_name`,
`re_test_psw`, `test_len_limit` from `api/mod.rs`, the bcrypt `hash` /
`verify` wrappers, and the outbound e-mail collaborator) are taken as
parameters of the definitions that use them: none of the verified claims
depends on their internals, so the theorems below hold for every
instantiation of those parameters.

The persistence collaborator is modelled as a list of `User` rows; a diesel
`filter(uname.eq(n)).load(..).pop()` is `(filter ..).getLast?`, a
`filter(..).get_result(..)` is `(filter ..).head?` (diesel errors with
`NotFound` on an empty result, modelled by `ServiceError.dieselNotFound`),
and `diesel::update(&row)` updates the rows whose primary key `id` equals
`row.id`.  Stateful handlers return the (possibly updated) database
together with their `Result`.
-/

/-- Rust `str::trim` (standard library): strip leading and trailing
whitespace.  Defined over the character list so that it evaluates inside
the kernel. -/
def String.rustTrim (s : String) : String :=
  String.mk (((s.data.dropWhile Char.isWhitespace).reverse.dropWhile
    Char.isWhitespace).reverse)

namespace TopBlog

/-- Error surface of `crate::errors::ServiceError` as used by `auth.rs`:
`BadRequest(msg)`, `Unauthorized`, plus the propagated diesel not-found
error (its exact conversion lives in `errors.rs`, outside `src/`). -/
inductive ServiceError where
  | badRequest : String → ServiceError
  | unauthorized : ServiceError
  | dieselNotFound : ServiceError
  deriving DecidableEq

/-- Response envelope `Msg { status, message }`. -/
structure Msg where
  status : Int
  message : String
  deriving DecidableEq

/-- Permission bit `LIMIT_PERMIT = 0x01`. -/
def LIMIT_PERMIT : Int := 0x01

/-- Permission bit `BASIC_PERMIT = 0x02`. -/
def BASIC_PERMIT : Int := 0x02

/-- Permission bit `EIDT_PERMIT = 0x04` (sic, the source's spelling). -/
def EIDT_PERMIT : Int := 0x04

/-- Permission bit `MOD_PERMIT = 0x10`. -/
def MOD_PERMIT : Int := 0x10

/-- Permission bit `ADMIN_PERMIT = 0x80`. -/
def ADMIN_PERMIT : Int := 0x80

/-- Session-token payload `Claims` (jwt claims for auth). -/
structure Claims where
  iss : String
  sub : String
  iat : Int
  exp : Int
  uid : Int
  uname : String
  permission : Int
  deriving DecidableEq

/-- Action-token payload `TokClaim` (reset / e-mail confirmation). -/
structure TokClaim where
  exp : Int
  uname : String
  email : String
  deriving DecidableEq

/-- Persisted `User` row of table `users`. -/
structure User where
  id : Int
  uname : String
  psw_hash : String
  join_at : Int
  last_seen : Int
  avatar : String
  email : String
  link : String
  intro : String
  location : String
  nickname : String
  permission : Int
  auth_from : String
  email_confirmed : Bool
  karma : Int
  is_pro : Bool
  can_push : Bool
  push_email : String
  deriving DecidableEq

/-- Sanitized account view `CheckUser` (user info without password hash). -/
structure CheckUser where
  id : Int
  uname : String
  join_at : Int
  avatar : String
  email : String
  intro : String
  location : String
  nickname : String
  permission : Int
  link : String
  auth_from : String
  email_confirmed : Bool
  deriving DecidableEq

/-- Minimal permission view `CheckCan { uname, permission }`. -/
structure CheckCan where
  uname : String
  permission : Int
  deriving DecidableEq

/-- `User::can`: `(self.permission & permission) == permission`. -/
def User.can (u : User) (permission : Int) : Bool :=
  Int.land u.permission permission == permission

/-- `CheckUser::can`: `(self.permission & permission) == permission`. -/
def CheckUser.can (u : CheckUser) (permission : Int) : Bool :=
  Int.land u.permission permission == permission

/-- `CheckCan::can`: `(self.permission & permission) == permission`. -/
def CheckCan.can (u : CheckCan) (permission : Int) : Bool :=
  Int.land u.permission permission == permission

/-- `impl From<User> for CheckUser`: drop the password hash and timestamps
other than `join_at`. -/
def User.toCheckUser (user : User) : CheckUser :=
  { id := user.id
    uname := user.uname
    join_at := user.join_at
    avatar := user.avatar
    email := user.email
    intro := user.intro
    location := user.location
    nickname := user.nickname
    permission := user.permission
    link := user.link
    auth_from := user.auth_from
    email_confirmed := user.email_confirmed }

/-- `impl From<CheckUser> for CheckCan`. -/
def CheckUser.toCheckCan (user : CheckUser) : CheckCan :=
  { uname := user.uname, permission := user.permission }

/-- `Claims::new(uid, uname, permit)`: issuer `toplog`, subject `auth`,
issued-at `now`, expiry `now + 5 days` (in seconds). -/
def Claims.new (now : Int) (uid : Int) (uname : String) (permit : Int) : Claims :=
  { iss := "toplog"
    sub := "auth"
    iat := now
    exp := now + 5 * 24 * 3600
    uid := uid
    uname := uname
    permission := permit }

/-- `impl From<Claims> for CheckUser`: profile fields default to empty,
`join_at` is the reconstruction time `Utc::now()`, `email_confirmed` is
`false`. -/
def Claims.toCheckUser (now : Int) (claims : Claims) : CheckUser :=
  { id := claims.uid
    uname := claims.uname
    join_at := now
    avatar := ""
    email := ""
    intro := ""
    location := ""
    nickname := ""
    permission := claims.permission
    link := ""
    auth_from := ""
    email_confirmed := false }

/-- Abstract JWT strings: a signed session token, a signed action token, or
anything else (malformed / unparseable header bytes). -/
inductive Token where
  | session : String → Claims → Token
  | action : String → TokClaim → Token
  | malformed : String → Token
  deriving DecidableEq

/-- `jsonwebtoken::decode::<Claims>` with `Validation::default()`: succeeds
exactly on a session-shaped token signed with `secret` whose expiry has not
passed. -/
def jwtDecodeSession (secret : String) (now : Int) : Token → Option Claims
  | Token.session s c => if s = secret ∧ now ≤ c.exp then some c else none
  | _ => none

/-- `jsonwebtoken::decode::<TokClaim>` with `Validation::default()`:
succeeds exactly on an action-shaped token signed with `secret` whose
expiry has not passed. -/
def jwtDecodeAction (secret : String) (now : Int) : Token → Option TokClaim
  | Token.action s c => if s = secret ∧ now ≤ c.exp then some c else none
  | _ => none

/-- `encode_token(data)`: sign `Claims::new(data.id, data.uname,
data.permission)` with the process secret. -/
def encode_token (secret : String) (now : Int) (data : CheckUser) : Token :=
  Token.session secret (Claims.new now data.id data.uname data.permission)

/-- `decode_token(token)`: decode and validate; `Unauthorized` on any
failure, otherwise the reconstructed `CheckUser`. -/
def decode_token (secret : String) (now : Int) (token : Token) :
    Except ServiceError CheckUser :=
  match jwtDecodeSession secret now token with
  | some claims => Except.ok (Claims.toCheckUser now claims)
  | none => Except.error ServiceError.unauthorized

/-- `generate_token(uname, email, expiration)`: sign a `TokClaim` whose
expiry is `now + expiration minutes`. -/
def generate_token (secret : String) (now : Int) (uname email : String)
    (expiration : Int) : Token :=
  Token.action secret
    { exp := now + 60 * expiration, uname := uname, email := email }

/-- `verify_token(token)`: never fails; on a valid decode it returns the
decoded claim, on any decode failure the sentinel
`TokClaim { exp: 0, uname: "", email: "" }`. -/
def verify_token (secret : String) (now : Int) (token : Token) : TokClaim :=
  match jwtDecodeAction secret now token with
  | some t => { exp := t.exp, uname := t.uname, email := t.email }
  | none => { exp := 0, uname := "", email := "" }

/-- The users table, a list of rows. -/
abbrev Db := List User

/-- `users.filter(uname.eq(n)).load::<User>(conn)?.pop()`: the last row
whose `uname` equals `n`. -/
def lookupUname (db : Db) (n : String) : Option User :=
  (db.filter (fun u => u.uname == n)).getLast?

/-- `users.filter(uname.eq(n)).get_result::<User>(conn)`: the first row
whose `uname` equals `n`, erroring (diesel `NotFound`) if there is none. -/
def getResultUname (db : Db) (n : String) : Option User :=
  (db.filter (fun u => u.uname == n)).head?

/-- `diesel::update(&row).set(..)`: update the rows whose primary key `id`
equals `tid`. -/
def dbUpdate (db : Db) (tid : Int) (f : User → User) : Db :=
  db.map (fun u => if u.id = tid then f u else u)

/-- Signin input `AuthUser { uname, password }` (password already
base64-decoded at the endpoint). -/
structure AuthUser where
  uname : String
  password : String
  deriving DecidableEq

/-- `AuthUser::validate`: length bounds 3..42 on the trimmed username and
8..18 on the password, via the `test_len_limit` helper (from `api/mod.rs`,
passed as a parameter). -/
def AuthUser.validate (test_len_limit : String → Nat → Nat → Bool)
    (au : AuthUser) : Except ServiceError Unit :=
  if test_len_limit au.uname.rustTrim 3 42 && test_len_limit au.password 8 18 then
    Except.ok ()
  else
    Except.error (ServiceError.badRequest "Invalid username or password")

/-- `AuthUser::auth`: look the account up by trimmed username; verify the
password with bcrypt `verify` (parameter `verifyFn`; `some b` models
`Ok(b)`, `none` models an internal `Err`); only `Ok(true)` succeeds, and
then `last_seen` is updated and the sanitized view returned.  Both the
missing-account case and every verification failure return the same
`BadRequest("Auth Failed")` and leave the store untouched. -/
def AuthUser.auth (verifyFn : String → String → Option Bool) (now : Int)
    (au : AuthUser) (db : Db) : Db × Except ServiceError CheckUser :=
  match lookupUname db au.uname.rustTrim with
  | some check_user =>
    match verifyFn au.password check_user.psw_hash with
    | some true =>
      let logged := { check_user with last_seen := now }
      (dbUpdate db check_user.id (fun u => { u with last_seen := now }),
        Except.ok logged.toCheckUser)
    | _ => (db, Except.error (ServiceError.badRequest "Auth Failed"))
  | none => (db, Except.error (ServiceError.badRequest "Auth Failed"))

/-- Reset phase-2 input `ResetPsw` rebuilt at the endpoint from the decoded
new password and the (possibly sentinel) claim returned by
`verify_token`. -/
structure ResetPsw where
  re_psw : String
  uname : String
  email : String
  exp : Int
  deriving DecidableEq

/-- `ResetPsw::validate`: password format, username format (helpers from
`api/mod.rs`, passed as parameters) and the caller-side expiry check
`Utc::now().timestamp() <= self.exp`. -/
def ResetPsw.validate (re_test_psw re_test_name : String → Bool) (now : Int)
    (r : ResetPsw) : Except ServiceError Unit :=
  if re_test_psw r.re_psw && re_test_name r.uname && decide (now ≤ r.exp) then
    Except.ok ()
  else
    Except.error (ServiceError.badRequest "Invalid password")

/-- `impl Handler<ResetPsw> for Dba`: load by username (`load` + `pop`);
if the stored e-mail equals the claim's e-mail, hash the new password
(parameter `hashFn`, modelling `hash_password`) and store it; otherwise
`BadRequest("Auth Failed")` without touching the store. -/
def handleResetPsw (hashFn : String → Except ServiceError String)
    (psw : ResetPsw) (db : Db) : Db × Except ServiceError Msg :=
  match lookupUname db psw.uname with
  | some old =>
    if old.email = psw.email then
      match hashFn psw.re_psw with
      | Except.ok new_password =>
        (dbUpdate db old.id (fun u => { u with psw_hash := new_password }),
          Except.ok { status := 200, message := "Success" })
      | Except.error e => (db, Except.error e)
    else
      (db, Except.error (ServiceError.badRequest "Auth Failed"))
  | none => (db, Except.error (ServiceError.badRequest "Not Existing"))

/-- `impl Handler<TokClaim> for Dba` (e-mail confirmation): load by the
claim's username; succeed with `true` and set `email_confirmed` exactly
when the claim is unexpired (`tok.exp >= now`) and the claim's e-mail
equals the stored one; otherwise `false` with no write. -/
def handleTokClaim (now : Int) (tok : TokClaim) (db : Db) :
    Db × Except ServiceError Bool :=
  match lookupUname db tok.uname with
  | some old =>
    if now ≤ tok.exp ∧ old.email = tok.email then
      (dbUpdate db old.id (fun u => { u with email_confirmed := true }),
        Except.ok true)
    else
      (db, Except.ok false)
  | none => (db, Except.ok false)

/-- Profile-update input `UpdateUser`. -/
structure UpdateUser where
  uname : String
  avatar : String
  email : String
  intro : String
  location : String
  nickname : String
  deriving DecidableEq

/-- The single `diesel::update(&old_user).set(&up_user).get_result` at the
end of `UpdateUser::update`: `AsChangeset` writes every non-key field of
`UpdateUser`, and the updated sanitized view is returned. -/
def applyUserUpdate (db : Db) (old_user : User) (up : UpdateUser) :
    Db × Except ServiceError CheckUser :=
  let setFields := fun (u : User) =>
    { u with
      uname := up.uname
      avatar := up.avatar
      email := up.email
      intro := up.intro
      location := up.location
      nickname := up.nickname }
  (dbUpdate db old_user.id setFields,
    Except.ok (setFields old_user).toCheckUser)

/-- `UpdateUser::update`: load by trimmed username (`get_result`); compute
the structural diff over avatar/intro/location/nickname (trimmed); fail
with `BadRequest("Nothing Changed")` if nothing differs and the trimmed
e-mail is unchanged; otherwise keep the old e-mail by default, and only
adopt a new well-formed, non-duplicate e-mail (sending a confirmation
token for it); a duplicate new e-mail with no other change also fails with
`BadRequest("Nothing Changed")`.  `re_test_email` and the e-mail
collaborator `sendConfirm` are parameters (they live outside `src/`). -/
def UpdateUser.update (re_test_email : String → Bool)
    (sendConfirm : String → String → Token → Except ServiceError Unit)
    (secret : String) (now : Int) (self : UpdateUser) (db : Db) :
    Db × Except ServiceError CheckUser :=
  let user_ := self
  let new_user_email := self.email.rustTrim
  let unm := self.uname.rustTrim
  match getResultUname db unm with
  | none => (db, Except.error ServiceError.dieselNotFound)
  | some old_user =>
    let old_user_email := old_user.email.rustTrim
    let check_changed : Bool :=
      self.avatar.rustTrim != old_user.avatar.rustTrim
      || self.intro.rustTrim != old_user.intro.rustTrim
      || self.location.rustTrim != old_user.location.rustTrim
      || self.nickname.rustTrim != old_user.nickname.rustTrim
    if !check_changed && new_user_email == old_user_email then
      (db, Except.error (ServiceError.badRequest "Nothing Changed"))
    else
      let up_user := { self with email := old_user_email }
      if re_test_email new_user_email && new_user_email != old_user_email then
        let check_dup_email :=
          ((db.filter (fun u => u.email == new_user_email)).getLast?).isSome
        if check_dup_email && !check_changed then
          (db, Except.error (ServiceError.badRequest "Nothing Changed"))
        else
          if !check_dup_email then
            match
              sendConfirm new_user_email unm
                (generate_token secret now unm new_user_email (60 * 24 * 2))
            with
            | Except.ok _ => applyUserUpdate db old_user user_
            | Except.error e => (db, Except.error e)
          else
            applyUserUpdate db old_user up_user
      else
        applyUserUpdate db old_user up_user

/-- An inbound request, as seen by the extractors: the `authorization`
header, the session cookie `NoSeSNekoTr`, and the `CsrfToken` header, each
possibly absent. -/
structure HttpRequest where
  authorization : Option Token
  cookie_tok : Option Token
  csrf_token : Option Token
  deriving DecidableEq

/-- The elevation condition computed at the end of `signin`:
`user.uname == admin || user.can(EIDT_PERMIT)`. -/
def signinCheckOmg (admin : String) (user : CheckUser) : Bool :=
  user.uname == admin || user.can EIDT_PERMIT

/-- The elevation condition computed at the end of the profile `update`
endpoint: `user.uname == admin || user.can(EIDT_PERMIT)`. -/
def updateCheckOmg (admin : String) (user : CheckUser) : Bool :=
  user.uname == admin || user.can EIDT_PERMIT

/-- The elevation condition computed inside `CheckCan::from_request`:
`u.uname == admin_env || u.can(EIDT_PERMIT)`. -/
def checkCanElevated (admin : String) (u : CheckCan) : Bool :=
  u.uname == admin || u.can EIDT_PERMIT

/-- `impl FromRequest for CheckUser` (strict): the header is tried first
and wins if it decodes; otherwise the cookie; otherwise `Unauthorized`. -/
def CheckUser.from_request (secret : String) (now : Int) (req : HttpRequest) :
    Except ServiceError CheckUser :=
  match req.authorization.bind (fun t => (decode_token secret now t).toOption) with
  | some user => Except.ok user
  | none =>
    match req.cookie_tok.bind (fun t => (decode_token secret now t).toOption) with
    | some user => Except.ok user
    | none => Except.error ServiceError.unauthorized

/-- `impl FromRequest for CheckCan` (elevated): starting from
`CheckCan::default()`, a decoding header overwrites the candidate, then a
decoding cookie overwrites it again (no early return in the source), and
finally the elevation condition gates the result. -/
def CheckCan.from_request (admin secret : String) (now : Int)
    (req : HttpRequest) : Except ServiceError CheckCan :=
  let u0 : CheckCan := { uname := "", permission := 0 }
  let u1 :=
    match req.authorization.bind (fun t => (decode_token secret now t).toOption) with
    | some user => user.toCheckCan
    | none => u0
  let u2 :=
    match req.cookie_tok.bind (fun t => (decode_token secret now t).toOption) with
    | some user => user.toCheckCan
    | none => u1
  if checkCanElevated admin u2 then Except.ok u2
  else Except.error ServiceError.unauthorized

/-- `impl FromRequest for CheckCsrf`: the `CsrfToken` header value goes
through `verify_token` and passes iff `Utc::now().timestamp() <= tc.exp`;
otherwise (or with no header) `BadRequest("c")`. -/
def CheckCsrf.from_request (secret : String) (now : Int) (req : HttpRequest) :
    Except ServiceError Unit :=
  match req.csrf_token with
  | some tok =>
    let tc := verify_token secret now tok
    if now ≤ tc.exp then Except.ok ()
    else Except.error (ServiceError.badRequest "c")
  | none => Except.error (ServiceError.badRequest "c")

/-! Helper lemmas about the database model. -/

/-- Filtering after a row map commutes when the map preserves the filtered
predicate. -/
theorem filter_getLast_map (l : List User) (g : User → User) (p : User → Bool)
    (hp : ∀ u, p (g u) = p u) :
    ((l.map g).filter p).getLast? = ((l.filter p).getLast?).map g := by
  rw [List.filter_map]
  have hcong : l.filter (p ∘ g) = l.filter p :=
    List.filter_congr (fun u _ => hp u)
  rw [hcong, List.getLast?_map]

/-- A `lookupUname` after a `dbUpdate` whose row transformation keeps
usernames intact finds the transformed row. -/
theorem lookupUname_dbUpdate (db : Db) (tid : Int) (f : User → User)
    (hf : ∀ u, (f u).uname = u.uname) (n : String) :
    lookupUname (dbUpdate db tid f) n =
      (lookupUname db n).map (fun u => if u.id = tid then f u else u) := by
  unfold lookupUname dbUpdate
  exact filter_getLast_map db (fun u => if u.id = tid then f u else u)
    (fun u => u.uname == n)
    (by intro u; by_cases h : u.id = tid <;> simp [h, hf])

/-- Re-applying an idempotent, id-preserving `dbUpdate` changes nothing. -/
theorem dbUpdate_dbUpdate_self (db : Db) (tid : Int) (f : User → User)
    (hff : ∀ u, f (f u) = f u) (hid : ∀ u, (f u).id = u.id) :
    dbUpdate (dbUpdate db tid f) tid f = dbUpdate db tid f := by
  unfold dbUpdate
  rw [List.map_map]
  apply List.map_congr_left
  intro u _
  by_cases h : u.id = tid
  · simp [Function.comp, h, hid, hff]
  · simp [Function.comp, h]

/-! Claim theorems. -/

/-- Claim C1: action-token verification is total and never errors.  On a
token that decodes (action-shaped, signed with the process secret,
unexpired) `verify_token` returns the embedded claim unchanged; on every
decode failure (wrong secret or expired, session-shaped payload, or a
malformed string) it returns the sentinel claim with expiry `0` and empty
username and e-mail. -/
theorem verify_token_total_sentinel (secret : String) (now : Int)
    (tok : Token) :
    (∀ s c, tok = Token.action s c → s = secret → now ≤ c.exp →
      verify_token secret now tok = c) ∧
    (∀ s c, tok = Token.action s c → ¬(s = secret ∧ now ≤ c.exp) →
      verify_token secret now tok = { exp := 0, uname := "", email := "" }) ∧
    (∀ s, tok = Token.malformed s →
      verify_token secret now tok = { exp := 0, uname := "", email := "" }) ∧
    (∀ s c, tok = Token.session s c →
      verify_token secret now tok = { exp := 0, uname := "", email := "" }) := by
  refine ⟨?_, ?_, ?_, ?_⟩
  · rintro s c rfl rfl h
    simp [verify_token, jwtDecodeAction, h]
  · rintro s c rfl hn
    simp only [verify_token, jwtDecodeAction, if_neg hn]
  · rintro s rfl
    rfl
  · rintro s c rfl
    rfl

/-- Witness for C1 at concrete inputs: a valid action token round-trips, a
malformed one yields the sentinel. -/
theorem verify_token_total_sentinel_witness :
    verify_token "k" 5 (Token.action "k" { exp := 10, uname := "u", email := "e" }) =
      { exp := 10, uname := "u", email := "e" } ∧
    verify_token "k" 5 (Token.malformed "zz") =
      { exp := 0, uname := "", email := "" } := by
  constructor
  · exact (verify_token_total_sentinel "k" 5
      (Token.action "k" { exp := 10, uname := "u", email := "e" })).1
      "k" { exp := 10, uname := "u", email := "e" } rfl rfl (by decide)
  · exact (verify_token_total_sentinel "k" 5 (Token.malformed "zz")).2.2.1
      "zz" rfl

/-- Claim C2: the elevation flag is `true` iff the username equals the
configured admin name or the EDIT bit (0x04) is set; it is computed by the
same condition at signin, at profile update, and in the elevated
(`CheckCan`) extractor; a user with only EDIT set is elevated, and a user
with only ADMIN (0x80) set and a non-admin username is not. -/
theorem elevation_condition (admin : String) (v : CheckUser) :
    (signinCheckOmg admin v = updateCheckOmg admin v) ∧
    (checkCanElevated admin v.toCheckCan = signinCheckOmg admin v) ∧
    (signinCheckOmg admin v = true ↔
      (v.uname = admin ∨ Int.land v.permission EIDT_PERMIT = EIDT_PERMIT)) ∧
    (v.permission = EIDT_PERMIT → signinCheckOmg admin v = true) ∧
    (v.permission = ADMIN_PERMIT → v.uname ≠ admin →
      signinCheckOmg admin v = false) := by
  refine ⟨rfl, rfl, ?_, ?_, ?_⟩
  · simp [signinCheckOmg, CheckUser.can]
  · intro h
    simp [signinCheckOmg, CheckUser.can, h, EIDT_PERMIT]
    exact Or.inr (by decide)
  · intro h1 h2
    simp [signinCheckOmg, CheckUser.can, h1, h2, ADMIN_PERMIT, EIDT_PERMIT]
    decide

/-- Witness for C2: with admin name `adm`, an EDIT-only user is elevated
and an ADMIN-only user named `bob` is not. -/
theorem elevation_condition_witness :
    signinCheckOmg "adm"
      { id := 1, uname := "bob", join_at := 0, avatar := "", email := "",
        intro := "", location := "", nickname := "",
        permission := ADMIN_PERMIT, link := "", auth_from := "",
        email_confirmed := false } = false ∧
    signinCheckOmg "adm"
      { id := 2, uname := "eve", join_at := 0, avatar := "", email := "",
        intro := "", location := "", nickname := "",
        permission := EIDT_PERMIT, link := "", auth_from := "",
        email_confirmed := false } = true := by
  constructor
  · exact (elevation_condition "adm" _).2.2.2.2 rfl (by decide)
  · exact (elevation_condition "adm" _).2.2.2.1 rfl

/-- Unfolding lemma: `decode_token` on a session-shaped token is a single
signature-and-expiry test. -/
theorem decode_token_session (secret : String) (now : Int) (s : String)
    (c : Claims) :
    decode_token secret now (Token.session s c) =
      if s = secret ∧ now ≤ c.exp then Except.ok (Claims.toCheckUser now c)
      else Except.error ServiceError.unauthorized := by
  by_cases h : s = secret ∧ now ≤ c.exp
  · simp [decode_token, jwtDecodeSession, h]
  · simp [decode_token, jwtDecodeSession, h]

/-- Claim C3: a session token encoded for a view decodes (at issuance time)
to a view with the same id, username and permission, all profile fields
empty and `email_confirmed` false; decoding strictly after the 5-day expiry
fails with `Unauthorized`, as does decoding anything not signed with the
process secret. -/
theorem session_token_roundtrip (secret : String) (now : Int)
    (A : CheckUser) :
    (decode_token secret now (encode_token secret now A) =
      Except.ok
        { id := A.id, uname := A.uname, join_at := now, avatar := "",
          email := "", intro := "", location := "", nickname := "",
          permission := A.permission, link := "", auth_from := "",
          email_confirmed := false }) ∧
    (∀ t : Int, now + 5 * 24 * 3600 < t →
      decode_token secret t (encode_token secret now A) =
        Except.error ServiceError.unauthorized) ∧
    (∀ tok : Token, (∀ c : Claims, tok ≠ Token.session secret c) →
      ∀ t : Int,
        decode_token secret t tok = Except.error ServiceError.unauthorized) := by
  refine ⟨?_, ?_, ?_⟩
  · have hc : secret = secret ∧
        now ≤ (Claims.new now A.id A.uname A.permission).exp := by
      refine ⟨rfl, ?_⟩
      simp only [Claims.new]
      omega
    unfold encode_token
    rw [decode_token_session, if_pos hc]
    simp [Claims.toCheckUser, Claims.new]
  · intro t ht
    have hc : ¬(secret = secret ∧
        t ≤ (Claims.new now A.id A.uname A.permission).exp) := by
      rintro ⟨-, h2⟩
      simp only [Claims.new] at h2
      omega
    unfold encode_token
    rw [decode_token_session, if_neg hc]
  · intro tok h t
    cases tok with
    | session s c =>
      by_cases hs : s = secret
      · subst hs
        exact absurd rfl (h c)
      · have hc : ¬(s = secret ∧ t ≤ c.exp) := by
          rintro ⟨h1, -⟩
          exact hs h1
        rw [decode_token_session, if_neg hc]
    | action s c => rfl
    | malformed s => rfl

/-- Witness for C3 at concrete inputs: a token issued at time 0 fails to
decode at time 432001, and a malformed string never decodes. -/
theorem session_token_roundtrip_witness :
    decode_token "k" 432001
      (encode_token "k" 0
        { id := 1, uname := "al", join_at := 0, avatar := "", email := "",
          intro := "", location := "", nickname := "", permission := 3,
          link := "", auth_from := "", email_confirmed := false }) =
      Except.error ServiceError.unauthorized ∧
    decode_token "k" 7 (Token.malformed "zz") =
      Except.error ServiceError.unauthorized := by
  constructor
  · exact (session_token_roundtrip "k" 0 _).2.1 432001 (by decide)
  · exact (session_token_roundtrip "k" 7
      { id := 1, uname := "al", join_at := 0, avatar := "", email := "",
        intro := "", location := "", nickname := "", permission := 3,
        link := "", auth_from := "", email_confirmed := false }).2.2
      (Token.malformed "zz") (fun c h => Token.noConfusion h) 7

/-- Claim C4: in reset phase 2, when the account named by the claim exists
but its stored e-mail differs from the claim's e-mail, the handler fails
with `BadRequest("Auth Failed")` and the store (hence the stored password
hash) is unchanged — the claim's expiry and any signature validity play no
role here; only on an e-mail match is the new password hashed and
stored. -/
theorem reset_phase2_email_binding
    (hashFn : String → Except ServiceError String)
    (psw : ResetPsw) (db : Db) (old : User)
    (hfind : lookupUname db psw.uname = some old) :
    (old.email ≠ psw.email →
      handleResetPsw hashFn psw db =
        (db, Except.error (ServiceError.badRequest "Auth Failed"))) ∧
    (∀ h, old.email = psw.email → hashFn psw.re_psw = Except.ok h →
      (handleResetPsw hashFn psw db).2 =
        Except.ok { status := 200, message := "Success" } ∧
      lookupUname (handleResetPsw hashFn psw db).1 psw.uname =
        some { old with psw_hash := h }) := by
  constructor
  · intro hne
    simp only [handleResetPsw, hfind]
    rw [if_neg hne]
  · intro h he hh
    have hmain : handleResetPsw hashFn psw db =
        (dbUpdate db old.id (fun u => { u with psw_hash := h }),
          Except.ok { status := 200, message := "Success" }) := by
      simp only [handleResetPsw, hfind, if_pos he, hh]
    rw [hmain]
    refine ⟨rfl, ?_⟩
    rw [lookupUname_dbUpdate db old.id (fun u => { u with psw_hash := h })
      (fun u => rfl) psw.uname, hfind]
    simp

/-- Witness for C4: an account whose stored e-mail is `a@x` rejects a claim
carrying `b@x` with `BadRequest("Auth Failed")`, untouched store. -/
theorem reset_phase2_email_binding_witness :
    handleResetPsw (fun s => Except.ok ("H" ++ s))
      { re_psw := "np", uname := "al", email := "b@x", exp := 999 }
      [{ id := 1, uname := "al", psw_hash := "old", join_at := 0,
         last_seen := 0, avatar := "", email := "a@x", link := "",
         intro := "", location := "", nickname := "", permission := 3,
         auth_from := "", email_confirmed := false, karma := 0,
         is_pro := false, can_push := false, push_email := "" }] =
      ([{ id := 1, uname := "al", psw_hash := "old", join_at := 0,
          last_seen := 0, avatar := "", email := "a@x", link := "",
          intro := "", location := "", nickname := "", permission := 3,
          auth_from := "", email_confirmed := false, karma := 0,
          is_pro := false, can_push := false, push_email := "" }],
        Except.error (ServiceError.badRequest "Auth Failed")) := by
  exact (reset_phase2_email_binding (fun s => Except.ok ("H" ++ s))
    { re_psw := "np", uname := "al", email := "b@x", exp := 999 }
    [{ id := 1, uname := "al", psw_hash := "old", join_at := 0,
       last_seen := 0, avatar := "", email := "a@x", link := "",
       intro := "", location := "", nickname := "", permission := 3,
       auth_from := "", email_confirmed := false, karma := 0,
       is_pro := false, can_push := false, push_email := "" }]
    { id := 1, uname := "al", psw_hash := "old", join_at := 0,
      last_seen := 0, avatar := "", email := "a@x", link := "",
      intro := "", location := "", nickname := "", permission := 3,
      auth_from := "", email_confirmed := false, karma := 0,
      is_pro := false, can_push := false, push_email := "" }
    (by decide)).1 (by decide)

/-- Claim C5: e-mail confirmation returns `true` and sets the confirmed
flag exactly when the account named by the claim exists, the claim is
unexpired (`tok.exp >= now`), and the claim's e-mail equals the stored one;
in every other case it returns `false` with the store untouched; and a
second confirmation with the same valid token returns `true` again and
leaves the store exactly as after the first. -/
theorem confirm_email_characterization (now : Int) (tok : TokClaim)
    (db : Db) :
    ((∃ u, lookupUname db tok.uname = some u ∧ now ≤ tok.exp ∧
        u.email = tok.email) →
      (handleTokClaim now tok db).2 = Except.ok true ∧
      (∀ u, lookupUname db tok.uname = some u →
        lookupUname (handleTokClaim now tok db).1 tok.uname =
          some { u with email_confirmed := true })) ∧
    (¬(∃ u, lookupUname db tok.uname = some u ∧ now ≤ tok.exp ∧
        u.email = tok.email) →
      handleTokClaim now tok db = (db, Except.ok false)) ∧
    (∀ db1, handleTokClaim now tok db = (db1, Except.ok true) →
      handleTokClaim now tok db1 = (db1, Except.ok true)) := by
  refine ⟨?_, ?_, ?_⟩
  · rintro ⟨u, hu, hexp, hem⟩
    have hcond : now ≤ tok.exp ∧ u.email = tok.email := ⟨hexp, hem⟩
    have hmain : handleTokClaim now tok db =
        (dbUpdate db u.id (fun v => { v with email_confirmed := true }),
          Except.ok true) := by
      simp only [handleTokClaim, hu, if_pos hcond]
    refine ⟨by rw [hmain], ?_⟩
    intro u' hu'
    rw [hu] at hu'
    cases hu'
    rw [hmain]
    rw [lookupUname_dbUpdate db u.id
      (fun v => { v with email_confirmed := true }) (fun v => rfl)
      tok.uname, hu]
    simp
  · intro hne
    cases hlk : lookupUname db tok.uname with
    | none => simp only [handleTokClaim, hlk]
    | some u =>
      by_cases hcond : now ≤ tok.exp ∧ u.email = tok.email
      · exact absurd ⟨u, hlk, hcond.1, hcond.2⟩ hne
      · simp only [handleTokClaim, hlk, if_neg hcond]
  · intro db1 heq
    cases hlk : lookupUname db tok.uname with
    | none =>
      have hmain0 : handleTokClaim now tok db = (db, Except.ok false) := by
        simp only [handleTokClaim, hlk]
      rw [hmain0] at heq
      have h2 : (Except.ok false : Except ServiceError Bool) =
          Except.ok true := congrArg Prod.snd heq
      simp at h2
    | some u =>
      by_cases hcond : now ≤ tok.exp ∧ u.email = tok.email
      · have hmain : handleTokClaim now tok db =
            (dbUpdate db u.id (fun v => { v with email_confirmed := true }),
              Except.ok true) := by
          simp only [handleTokClaim, hlk, if_pos hcond]
        have hdb1 : db1 =
            dbUpdate db u.id (fun v => { v with email_confirmed := true }) := by
          have h2 := hmain.symm.trans heq
          have h3 : dbUpdate db u.id
              (fun v => { v with email_confirmed := true }) = db1 :=
            congrArg Prod.fst h2
          exact h3.symm
        subst hdb1
        have hlk1 : lookupUname
            (dbUpdate db u.id (fun v => { v with email_confirmed := true }))
            tok.uname = some { u with email_confirmed := true } := by
          rw [lookupUname_dbUpdate db u.id
            (fun v => { v with email_confirmed := true }) (fun v => rfl)
            tok.uname, hlk]
          simp
        have hcond1 : now ≤ tok.exp ∧
            ({ u with email_confirmed := true } : User).email = tok.email :=
          ⟨hcond.1, hcond.2⟩
        simp only [handleTokClaim, hlk1, if_pos hcond1]
        rw [dbUpdate_dbUpdate_self db u.id
          (fun v => { v with email_confirmed := true }) (fun v => rfl)
          (fun v => rfl)]
      · have hmain0 : handleTokClaim now tok db = (db, Except.ok false) := by
          simp only [handleTokClaim, hlk, if_neg hcond]
        rw [hmain0] at heq
        have h2 : (Except.ok false : Except ServiceError Bool) =
            Except.ok true := congrArg Prod.snd heq
        simp at h2

/-- Witness for C5: a matching, unexpired claim confirms the account. -/
theorem confirm_email_characterization_witness :
    (handleTokClaim 1 { exp := 10, uname := "al", email := "e@x" }
      [{ id := 1, uname := "al", psw_hash := "h", join_at := 0,
         last_seen := 0, avatar := "", email := "e@x", link := "",
         intro := "", location := "", nickname := "", permission := 3,
         auth_from := "", email_confirmed := false, karma := 0,
         is_pro := false, can_push := false, push_email := "" }]).2 =
      Except.ok true := by
  exact ((confirm_email_characterization 1
    { exp := 10, uname := "al", email := "e@x" }
    [{ id := 1, uname := "al", psw_hash := "h", join_at := 0,
       last_seen := 0, avatar := "", email := "e@x", link := "",
       intro := "", location := "", nickname := "", permission := 3,
       auth_from := "", email_confirmed := false, karma := 0,
       is_pro := false, can_push := false, push_email := "" }]).1
    ⟨{ id := 1, uname := "al", psw_hash := "h", join_at := 0,
       last_seen := 0, avatar := "", email := "e@x", link := "",
       intro := "", location := "", nickname := "", permission := 3,
       auth_from := "", email_confirmed := false, karma := 0,
       is_pro := false, can_push := false, push_email := "" },
      by decide, by decide, by decide⟩).1

/-- Claim C6: for a signin input that passes length validation, the
missing-account failure and every password-verification failure produce
the identical error `BadRequest("Auth Failed")`, and the store is
unmodified in both cases. -/
theorem signin_uniform_auth_error
    (test_len_limit : String → Nat → Nat → Bool)
    (verifyFn : String → String → Option Bool) (now : Int)
    (au : AuthUser) (db : Db)
    (hval : AuthUser.validate test_len_limit au = Except.ok ()) :
    (lookupUname db au.uname.rustTrim = none →
      AuthUser.auth verifyFn now au db =
        (db, Except.error (ServiceError.badRequest "Auth Failed"))) ∧
    (∀ u, lookupUname db au.uname.rustTrim = some u →
      verifyFn au.password u.psw_hash ≠ some true →
      AuthUser.auth verifyFn now au db =
        (db, Except.error (ServiceError.badRequest "Auth Failed"))) := by
  constructor
  · intro hnone
    simp only [AuthUser.auth, hnone]
  · intro u hu hv
    simp only [AuthUser.auth, hu]

/-- Witness for C6: an empty store rejects a validated signin with
`BadRequest("Auth Failed")`. -/
theorem signin_uniform_auth_error_witness :
    AuthUser.auth (fun _ _ => some false) 0
      { uname := "alice", password := "password1" } [] =
      ([], Except.error (ServiceError.badRequest "Auth Failed")) := by
  exact (signin_uniform_auth_error (fun _ _ _ => true)
    (fun _ _ => some false) 0 { uname := "alice", password := "password1" }
    [] rfl).1 rfl

/-- Claim C7: when the stored account matches all trimmed profile fields
of the update input, an unchanged trimmed e-mail makes the update fail
with `BadRequest("Nothing Changed")` and no write; and a changed,
well-formed e-mail that is already used by some account also fails with
`BadRequest("Nothing Changed")` and no write. -/
theorem update_nothing_changed (re_test_email : String → Bool)
    (sendConfirm : String → String → Token → Except ServiceError Unit)
    (secret : String) (now : Int) (up : UpdateUser) (db : Db) (old : User)
    (hfind : getResultUname db up.uname.rustTrim = some old)
    (hav : up.avatar.rustTrim = old.avatar.rustTrim)
    (hin : up.intro.rustTrim = old.intro.rustTrim)
    (hlo : up.location.rustTrim = old.location.rustTrim)
    (hni : up.nickname.rustTrim = old.nickname.rustTrim) :
    (up.email.rustTrim = old.email.rustTrim →
      UpdateUser.update re_test_email sendConfirm secret now up db =
        (db, Except.error (ServiceError.badRequest "Nothing Changed"))) ∧
    (re_test_email up.email.rustTrim = true → up.email.rustTrim ≠ old.email.rustTrim →
      (∃ w ∈ db, w.email = up.email.rustTrim) →
      UpdateUser.update re_test_email sendConfirm secret now up db =
        (db, Except.error (ServiceError.badRequest "Nothing Changed"))) := by
  constructor
  · intro hem
    simp [UpdateUser.update, hfind, hav, hin, hlo, hni, hem]
  · intro hre hne hdup
    simp [UpdateUser.update, hfind, hav, hin, hlo, hni, hne, hre]
    intro hall
    rcases hdup with ⟨w, hw, hwe⟩
    exact absurd hwe (hall w hw)

/-- Witness for C7: an update identical to the stored profile with the
same e-mail is rejected as `Nothing Changed`. -/
theorem update_nothing_changed_witness :
    UpdateUser.update (fun _ => true) (fun _ _ _ => Except.ok ()) "k" 0
      { uname := "al", avatar := "", email := "e@x", intro := "",
        location := "", nickname := "" }
      [{ id := 1, uname := "al", psw_hash := "h", join_at := 0,
         last_seen := 0, avatar := "", email := "e@x", link := "",
         intro := "", location := "", nickname := "", permission := 3,
         auth_from := "", email_confirmed := false, karma := 0,
         is_pro := false, can_push := false, push_email := "" }] =
      ([{ id := 1, uname := "al", psw_hash := "h", join_at := 0,
          last_seen := 0, avatar := "", email := "e@x", link := "",
          intro := "", location := "", nickname := "", permission := 3,
          auth_from := "", email_confirmed := false, karma := 0,
          is_pro := false, can_push := false, push_email := "" }],
        Except.error (ServiceError.badRequest "Nothing Changed")) := by
  exact (update_nothing_changed (fun _ => true) (fun _ _ _ => Except.ok ())
    "k" 0
    { uname := "al", avatar := "", email := "e@x", intro := "",
      location := "", nickname := "" }
    [{ id := 1, uname := "al", psw_hash := "h", join_at := 0,
       last_seen := 0, avatar := "", email := "e@x", link := "",
       intro := "", location := "", nickname := "", permission := 3,
       auth_from := "", email_confirmed := false, karma := 0,
       is_pro := false, can_push := false, push_email := "" }]
    { id := 1, uname := "al", psw_hash := "h", join_at := 0,
      last_seen := 0, avatar := "", email := "e@x", link := "",
      intro := "", location := "", nickname := "", permission := 3,
      auth_from := "", email_confirmed := false, karma := 0,
      is_pro := false, can_push := false, push_email := "" }
    (by decide) (by decide) (by decide) (by decide) (by decide)).1
    (by decide)

/-- Counterexample to claim C8: in the elevated (`CheckCan`) extractor,
when both the header and the cookie carry valid session tokens, the
identity taken is the cookie's (`bob`), not the header's (`alice`) — the
source has no early return after the header decode, so the cookie
assignment overwrites it.  The third conjunct shows the header token does
decode successfully on its own. -/
theorem checkcan_cookie_overrides_header :
    CheckCan.from_request "adm" "k" 0
      { authorization := some (Token.session "k"
          { iss := "toplog", sub := "auth", iat := 0, exp := 100, uid := 1,
            uname := "alice", permission := 4 }),
        cookie_tok := some (Token.session "k"
          { iss := "toplog", sub := "auth", iat := 0, exp := 100, uid := 2,
            uname := "bob", permission := 4 }),
        csrf_token := none } =
      Except.ok { uname := "bob", permission := 4 } ∧
    (Except.ok { uname := "bob", permission := 4 } :
        Except ServiceError CheckCan) ≠
      Except.ok { uname := "alice", permission := 4 } ∧
    decode_token "k" 0 (Token.session "k"
        { iss := "toplog", sub := "auth", iat := 0, exp := 100, uid := 1,
          uname := "alice", permission := 4 }) =
      Except.ok (Claims.toCheckUser 0
        { iss := "toplog", sub := "auth", iat := 0, exp := 100, uid := 1,
          uname := "alice", permission := 4 }) := by
  refine ⟨rfl, ?_, rfl⟩
  intro h
  have h2 : ({ uname := "bob", permission := 4 } : CheckCan) =
      { uname := "alice", permission := 4 } := Except.ok.inj h
  have h3 : ("bob" : String) = "alice" := congrArg CheckCan.uname h2
  exact absurd h3 (by decide)

/-- Claim C8 as amended: the strict (`CheckUser`) extractor gives the
header priority and falls back to the cookie on header absence or failure;
the elevated (`CheckCan`) extractor tries the header and then the cookie,
and a successfully decoding cookie overrides the header, so the cookie
wins when both decode; header failure never prevents the cookie fallback
in either variant. -/
theorem extractor_precedence (admin secret : String) (now : Int)
    (req : HttpRequest) :
    (∀ u, req.authorization.bind
        (fun t => (decode_token secret now t).toOption) = some u →
      CheckUser.from_request secret now req = Except.ok u) ∧
    (req.authorization.bind
        (fun t => (decode_token secret now t).toOption) = none →
      (∀ u, req.cookie_tok.bind
          (fun t => (decode_token secret now t).toOption) = some u →
        CheckUser.from_request secret now req = Except.ok u) ∧
      (req.cookie_tok.bind
          (fun t => (decode_token secret now t).toOption) = none →
        CheckUser.from_request secret now req =
          Except.error ServiceError.unauthorized)) ∧
    (∀ v, req.cookie_tok.bind
        (fun t => (decode_token secret now t).toOption) = some v →
      CheckCan.from_request admin secret now req =
        (if checkCanElevated admin v.toCheckCan then Except.ok v.toCheckCan
         else Except.error ServiceError.unauthorized)) ∧
    (req.cookie_tok.bind
        (fun t => (decode_token secret now t).toOption) = none →
      ∀ u, req.authorization.bind
          (fun t => (decode_token secret now t).toOption) = some u →
        CheckCan.from_request admin secret now req =
          (if checkCanElevated admin u.toCheckCan then Except.ok u.toCheckCan
           else Except.error ServiceError.unauthorized)) := by
  refine ⟨?_, ?_, ?_, ?_⟩
  · intro u hu
    simp only [CheckUser.from_request, hu]
  · intro hn
    constructor
    · intro u hu
      simp only [CheckUser.from_request, hn, hu]
    · intro hcn
      simp only [CheckUser.from_request, hn, hcn]
  · intro v hv
    simp only [CheckCan.from_request, hv]
  · intro hcn u hu
    simp only [CheckCan.from_request, hcn, hu]

/-- Witness for the amended C8 at concrete inputs: with only a cookie
token, the strict extractor yields the cookie's identity. -/
theorem extractor_precedence_witness :
    CheckUser.from_request "k" 0
      { authorization := none,
        cookie_tok := some (Token.session "k"
          { iss := "toplog", sub := "auth", iat := 0, exp := 100, uid := 2,
            uname := "bob", permission := 4 }),
        csrf_token := none } =
      Except.ok (Claims.toCheckUser 0
        { iss := "toplog", sub := "auth", iat := 0, exp := 100, uid := 2,
          uname := "bob", permission := 4 }) := by
  exact ((extractor_precedence "adm" "k" 0
    { authorization := none,
      cookie_tok := some (Token.session "k"
        { iss := "toplog", sub := "auth", iat := 0, exp := 100, uid := 2,
          uname := "bob", permission := 4 }),
      csrf_token := none }).2.1 rfl).1 _ (by decide)

/-- Bitwise characterization of the AND-equality capability test over
naturals. -/
theorem nat_land_eq_iff (p m : Nat) :
    p &&& m = m ↔ ∀ i, m.testBit i → p.testBit i := by
  constructor
  · intro h i him
    have h2 : (p &&& m).testBit i = m.testBit i := by rw [h]
    rw [Nat.testBit_land, him, Bool.and_true] at h2
    exact h2
  · intro h
    apply Nat.eq_of_testBit_eq
    intro i
    rw [Nat.testBit_land]
    cases hm : m.testBit i with
    | false => simp
    | true => simp [h i hm]

/-- The same characterization transported to nonnegative integers. -/
theorem int_land_eq_iff_testBit (p m : Nat) :
    Int.land (p : Int) (m : Int) = (m : Int) ↔
      ∀ i, m.testBit i → p.testBit i := by
  have h : Int.land (p : Int) (m : Int) = ((p &&& m : Nat) : Int) := rfl
  rw [h]
  constructor
  · intro h2
    exact (nat_land_eq_iff p m).mp (Nat.cast_inj.mp h2)
  · intro h2
    exact congrArg (fun n : Nat => (n : Int)) ((nat_land_eq_iff p m).mpr h2)

/-- Claim C9: the capability check is AND-equality — `can(view, mask)` is
true iff `(view.permission & mask) == mask`, equivalently (for nonnegative
values) iff every bit set in `mask` is set in `view.permission`; `User`,
`CheckUser` and `CheckCan` all compute the identical test; and with
permission `0x03`, mask `0x01` is granted while mask `0x04` is not. -/
theorem can_bitmask (v : CheckCan) (mask : Int) :
    (CheckCan.can v mask = true ↔ Int.land v.permission mask = mask) ∧
    (0 ≤ v.permission → 0 ≤ mask →
      (CheckCan.can v mask = true ↔
        ∀ i, mask.toNat.testBit i → v.permission.toNat.testBit i)) ∧
    (∀ u : User, User.can u mask =
      CheckCan.can { uname := u.uname, permission := u.permission } mask) ∧
    (∀ cu : CheckUser,
      CheckUser.can cu mask = CheckCan.can cu.toCheckCan mask) ∧
    (v.permission = 3 →
      CheckCan.can v 1 = true ∧ CheckCan.can v 4 = false) := by
  refine ⟨?_, ?_, fun u => rfl, fun cu => rfl, ?_⟩
  · simp [CheckCan.can]
  · intro hp hm
    have hv2 : ((v.permission.toNat : Nat) : Int) = v.permission :=
      Int.toNat_of_nonneg hp
    have hm2 : ((mask.toNat : Nat) : Int) = mask := Int.toNat_of_nonneg hm
    simp only [CheckCan.can, beq_iff_eq]
    constructor
    · intro h i hbit
      have h2 : Int.land ((v.permission.toNat : Nat) : Int)
          ((mask.toNat : Nat) : Int) = ((mask.toNat : Nat) : Int) := by
        rw [hv2, hm2]
        exact h
      exact (int_land_eq_iff_testBit _ _).mp h2 i hbit
    · intro h
      have h2 := (int_land_eq_iff_testBit
        v.permission.toNat mask.toNat).mpr h
      rw [hv2, hm2] at h2
      exact h2
  · intro h
    constructor
    · simp only [CheckCan.can, h]
      decide
    · simp only [CheckCan.can, h]
      decide

/-- Witness for C9: a view with permission `0x03` can `0x01` but not
`0x04`. -/
theorem can_bitmask_witness :
    CheckCan.can { uname := "u", permission := 3 } 1 = true ∧
    CheckCan.can { uname := "u", permission := 3 } 4 = false := by
  exact (can_bitmask { uname := "u", permission := 3 } 0).2.2.2.2 rfl

/-- Claim C10: a failed action-token verification yields the sentinel
claim, and at any current time after the epoch every downstream consumer
rejects it: reset phase-2 validation fails (`now <= 0` is false), the CSRF
extractor errors, and the confirmation handler returns `false` without
touching the store. -/
theorem sentinel_rejected_downstream (secret : String) (now : Int)
    (hnow : 0 < now) (re_test_psw re_test_name : String → Bool)
    (re_psw : String) (tok : Token)
    (hfail : jwtDecodeAction secret now tok = none) (db : Db)
    (req : HttpRequest) (hreq : req.csrf_token = some tok) :
    verify_token secret now tok = { exp := 0, uname := "", email := "" } ∧
    ResetPsw.validate re_test_psw re_test_name now
      { re_psw := re_psw, uname := (verify_token secret now tok).uname,
        email := (verify_token secret now tok).email,
        exp := (verify_token secret now tok).exp } =
      Except.error (ServiceError.badRequest "Invalid password") ∧
    CheckCsrf.from_request secret now req =
      Except.error (ServiceError.badRequest "c") ∧
    handleTokClaim now (verify_token secret now tok) db =
      (db, Except.ok false) := by
  have hsent : verify_token secret now tok =
      { exp := 0, uname := "", email := "" } := by
    simp only [verify_token, hfail]
  refine ⟨hsent, ?_, ?_, ?_⟩
  · rw [hsent]
    have hd : decide (now ≤ (0 : Int)) = false := by
      simp only [decide_eq_false_iff_not]
      omega
    simp [ResetPsw.validate, hd]
  · have hd2 : ¬(now ≤ (0 : Int)) := by omega
    simp only [CheckCsrf.from_request, hreq, hsent, if_neg hd2]
  · rw [hsent]
    cases hlk : lookupUname db "" with
    | none => simp only [handleTokClaim, hlk]
    | some u =>
      have hc : ¬(now ≤ (0 : Int) ∧ u.email = "") := by
        rintro ⟨h1, -⟩
        omega
      simp only [handleTokClaim, hlk, if_neg hc]

/-- Witness for C10 at concrete inputs: with `now = 1` and a malformed
token, reset validation and the CSRF extractor both reject the sentinel
claim. -/
theorem sentinel_rejected_downstream_witness :
    ResetPsw.validate (fun _ => true) (fun _ => true) 1
      { re_psw := "p",
        uname := (verify_token "k" 1 (Token.malformed "x")).uname,
        email := (verify_token "k" 1 (Token.malformed "x")).email,
        exp := (verify_token "k" 1 (Token.malformed "x")).exp } =
      Except.error (ServiceError.badRequest "Invalid password") ∧
    CheckCsrf.from_request "k" 1
      { authorization := none, cookie_tok := none,
        csrf_token := some (Token.malformed "x") } =
      Except.error (ServiceError.badRequest "c") := by
  have h := sentinel_rejected_downstream "k" 1 (by decide) (fun _ => true)
    (fun _ => true) "p" (Token.malformed "x") rfl []
    { authorization := none, cookie_tok := none,
      csrf_token := some (Token.malformed "x") } rfl
  exact ⟨h.2.1, h.2.2.1⟩

end TopBlog
